import Mathlib

/-!
Verification of the Custom-DiscordRPC activity tracker.

This development shallowly embeds the pure logic of the multi-identity
variant of `src/windows/src/index.ts` (the variant with per-category
client identities, debounced switching and exponential-backoff
reconnection, which is the final/de-duplicated design the specification
describes).  JavaScript strings are modelled as `List Char` (ASCII code
points coincide with UTF-16 code units on all inputs considered here);
JS string operations (`toLowerCase`, `includes`, `substring`, `split`,
`trim`, template concatenation) are translated operation by operation,
and the few regular expressions the classifier uses are given explicit
leftmost / lazy / greedy matching functions mirroring the JS regex
semantics for those concrete patterns.  Timestamps are rationals (JS
numbers; every arithmetic operation performed by the program on them is
exact in the floating range used).  Timer-driven code is embedded as
explicit state transitions: a pending `setTimeout` is an optional due
time stored in the state, `clearTimeout` sets it to `none`, and firing
a due timer runs the translated callback body.
-/

namespace CustomRPC

/-- JavaScript strings, modelled as lists of characters. -/
abbrev Str := List Char

/-- Coerce a Lean string literal to the `Str` model. -/
def jstr (s : String) : Str := s.data

/-- JS `String.prototype.toLowerCase` (ASCII range, which covers every
string the program compares). -/
def toLowerStr (s : Str) : Str := s.map Char.toLower

/-- JS `hay.includes(needle)`: substring containment (empty needle
always contained). -/
def includesStr (needle : Str) : Str → Bool
  | [] => needle.isEmpty
  | c :: rest => needle.isPrefixOf (c :: rest) || includesStr needle rest

/-- Characters the JS regex dot `.` matches (anything but a line
terminator). -/
def dotOk (c : Char) : Bool := !(c = '\n' || c = '\r')

/-- Whitespace for JS `String.prototype.trim` (the characters that can
actually occur in window titles). -/
def jsIsSpace (c : Char) : Bool := c = ' ' || c = '\t' || c = '\n' || c = '\r'

/-- JS `String.prototype.trim`. -/
def trimStr (s : Str) : Str :=
  ((s.dropWhile jsIsSpace).reverse.dropWhile jsIsSpace).reverse

/-- JS `s.split(sep)` for a non-empty string separator. -/
def splitOnStr (sep : Str) : Str → List Str
  | [] => [[]]
  | c :: rest =>
    if sep.isPrefixOf (c :: rest) ∧ sep ≠ [] then
      [] :: splitOnStr sep (rest.drop (sep.length - 1))
    else
      match splitOnStr sep rest with
      | [] => [[c]]
      | h :: t => (c :: h) :: t
  termination_by s => s.length
  decreasing_by
    all_goals simp [List.length_drop]
    omega

/-- Decimal rendering of an integer, as JS template interpolation of a
number produces for the integral values the program formats. -/
def numStr (n : Int) : Str := (toString n).data

/-- Decimal rendering of a natural number. -/
def natStr (n : Nat) : Str := (toString n).data

/-!
Regex models.  Each JS regex used by the classifier is embedded as an
explicit search function with the JS semantics for that pattern:
leftmost match position wins; a lazy `(.+?)` group takes the shortest
extension for which the rest of the pattern still matches; a greedy
`(.+)` or `([^x]+)` group takes the longest such extension; `.` does
not match line terminators while a negated class `[^x]` does.
-/

/-- Lazy group for a pattern tail `(.+?)<stop>…`: starting at the head
of the input, the shortest non-empty dot-compatible group after which
`stop` is a prefix of the remainder.  Used as the second group of the
Spotify pattern. -/
def lazyGroupBefore (stop : Str) : Str → Option Str
  | [] => none
  | c :: rest =>
    if dotOk c then
      if stop.isPrefixOf rest then some [c]
      else
        match lazyGroupBefore stop rest with
        | some g => some (c :: g)
        | none => none
    else none

/-- Match of `/(.+?) - (.+?) - Spotify/` anchored at the head of the
input: the first group is the shortest non-empty dot-compatible run
followed by a literal " - " after which the lazy tail
`(.+?) - Spotify` matches. -/
def matchSpotifyAt : Str → Option (Str × Str)
  | [] => none
  | c :: rest =>
    if dotOk c then
      match
        (if (jstr " - ").isPrefixOf rest then
          match lazyGroupBefore (jstr " - Spotify") (rest.drop 3) with
          | some g2 => some (([c] : Str), g2)
          | none => none
        else none) with
      | some r => some r
      | none =>
        match matchSpotifyAt rest with
        | some (g1, g2) => some (c :: g1, g2)
        | none => none
    else none

/-- JS `title.match(/(.+?) - (.+?) - Spotify/)`: leftmost match,
returning the two captured groups. -/
def spotifyMatch : Str → Option (Str × Str)
  | [] => none
  | c :: rest =>
    match matchSpotifyAt (c :: rest) with
    | some r => some r
    | none => spotifyMatch rest

/-- Greedy split for `(.+) - ([^-]+) - Google Chrome$` once the fixed
suffix has been removed: the longest non-empty dot-compatible first
group followed by " - " and a non-empty dash-free second group filling
the rest. -/
def chromeSplitGreedy (core : Str) : Option (Str × Str) :=
  (List.range core.length).reverse.findSome? (fun a =>
    let g1 := core.take a
    let r := core.drop a
    if 1 ≤ a ∧ g1.all dotOk ∧ (jstr " - ").isPrefixOf r then
      let g2 := r.drop 3
      if g2 ≠ [] ∧ g2.all (fun ch => !(ch = '-')) then some (g1, g2) else none
    else none)

/-- Match of `/(.+) - ([^-]+) - Google Chrome$/` anchored at the head
of the input. -/
def chromeMatchHere (t : Str) : Option (Str × Str) :=
  if (jstr " - Google Chrome").isSuffixOf t then
    chromeSplitGreedy (t.take (t.length - 16))
  else none

/-- JS `title.match(/(.+) - ([^-]+) - Google Chrome$/)`: leftmost
start position, then greedy groups. -/
def chromeMatch : Str → Option (Str × Str)
  | [] => none
  | c :: rest =>
    match chromeMatchHere (c :: rest) with
    | some r => some r
    | none => chromeMatch rest

/-- Match of `/(.+) - Google Chrome$/` anchored at the head of the
input: the whole input minus the fixed 16-character suffix, required
non-empty and dot-compatible. -/
def chromeSimpleHere (t : Str) : Option Str :=
  if (jstr " - Google Chrome").isSuffixOf t ∧ 17 ≤ t.length ∧
      (t.take (t.length - 16)).all dotOk then
    some (t.take (t.length - 16))
  else none

/-- JS `title.match(/(.+) - Google Chrome$/)`: leftmost start
position. -/
def chromeSimpleMatch : Str → Option Str
  | [] => none
  | c :: rest =>
    match chromeSimpleHere (c :: rest) with
    | some r => some r
    | none => chromeSimpleMatch rest

/-- Match of `/(.+) - YouTube/` anchored at the head of the input:
greedy longest non-empty dot-compatible group followed by the literal
" - YouTube" (trailing text allowed, the pattern is unanchored at the
end). -/
def ytMatchHere (t : Str) : Option Str :=
  (List.range (t.length + 1)).reverse.findSome? (fun a =>
    if 1 ≤ a ∧ (t.take a).all dotOk ∧ (jstr " - YouTube").isPrefixOf (t.drop a) then
      some (t.take a)
    else none)

/-- JS `title.match(/(.+) - YouTube/)`: leftmost start position, then
greedy group. -/
def ytMatch : Str → Option Str
  | [] => none
  | c :: rest =>
    match ytMatchHere (c :: rest) with
    | some r => some r
    | none => ytMatch rest

/-- Match of the extension pattern (a literal dot, then a greedy
capture `[^.]+`, then the literal " -") anchored at the head of the
input: the greedy longest non-empty dot-free group followed by the
literal " -". -/
def fileExtHere : Str → Option Str
  | [] => none
  | c :: rest =>
    if c = '.' then
      (List.range (rest.length + 1)).reverse.findSome? (fun b =>
        if 1 ≤ b ∧ (rest.take b).all (fun ch => !(ch = '.')) ∧
            (jstr " -").isPrefixOf (rest.drop b) then
          some (rest.take b)
        else none)
    else none

/-- JS match of the extension pattern (dot, greedy `[^.]+` capture,
literal " -"): leftmost start position, then greedy group. -/
def fileExtMatch : Str → Option Str
  | [] => none
  | c :: rest =>
    match fileExtHere (c :: rest) with
    | some r => some r
    | none => fileExtMatch rest

/-!
Data model: configuration records, the window sample, the classifier
output, and the presence payload (interface `ActivityData` in the
source).
-/

/-- One entry of `priorityApps` / `customApps` from the configuration:
a process-name token plus the base fields applied on a match. -/
structure PriorityApp where
  processName : Str
  type : Str
  icon : Str
  details : Str

/-- One entry of `config.applications`: the client identity used for a
category together with the process-name tokens that select it. -/
structure AppEntry where
  clientId : Str
  processNames : List Str

/-- The configuration fields the embedded core reads (interface
`AppConfig` in the source; `applications` is kept as an ordered list of
key/entry pairs, matching `Object.entries` insertion order). -/
structure AppConfig where
  defaultClientId : Str
  updateInterval : Nat
  enableDetailedStats : Bool
  enableSystemInfo : Bool
  idleTimeout : Nat
  applications : List (Str × AppEntry)

/-- A foreground-window sample produced by the external OS query. -/
structure Sample where
  windowTitle : Str
  processName : Str

/-- The mutable classification fields of `getCurrentActivity`, before
payload construction. -/
structure BaseFields where
  activityType : Str
  largeImageKey : Str
  details : Str
  state : Str

/-- Classifier output: the final classification fields together with
the resolved application category (`appType`). -/
structure ClassifyOut where
  activityType : Str
  largeImageKey : Str
  details : Str
  state : Str
  appType : Str

/-- The presence payload (interface `ActivityData` in the source;
optional fields that are always set are kept plain). -/
structure ActivityData where
  details : Str
  state : Str
  largeImageKey : Str
  largeImageText : Str
  smallImageKey : Str
  smallImageText : Str
  startTimestamp : Int

/-- The match test used for priority and custom apps: case-insensitive
substring containment of the token in either the process name or the
window title. -/
def appMatches (app : PriorityApp) (processName windowTitle : Str) : Bool :=
  includesStr (toLowerStr app.processName) (toLowerStr processName) ||
  includesStr (toLowerStr app.processName) (toLowerStr windowTitle)

/-- Category detection against `config.applications`: the first entry
one of whose tokens is a case-insensitive substring of the process name
or the window title; otherwise "default". -/
def detectAppType (apps : List (Str × AppEntry)) (processName windowTitle : Str) : Str :=
  match apps.find? (fun ta => ta.2.processNames.any (fun p =>
      includesStr (toLowerStr p) (toLowerStr processName) ||
      includesStr (toLowerStr p) (toLowerStr windowTitle))) with
  | some ta => ta.1
  | none => jstr "default"

/-- The extension-to-language table of the VS Code refinement. -/
def langMap : List (Str × Str) :=
  [(jstr "js", jstr "JavaScript"), (jstr "ts", jstr "TypeScript"),
   (jstr "py", jstr "Python"), (jstr "java", jstr "Java"),
   (jstr "cpp", jstr "C++"), (jstr "cs", jstr "C#"),
   (jstr "html", jstr "HTML"), (jstr "css", jstr "CSS"),
   (jstr "php", jstr "PHP")]

/-- Language lookup: mapped extensions are replaced, unmapped ones
pass through verbatim. -/
def langLookup (ext : Str) : Str :=
  match langMap.find? (fun p => p.1 == ext) with
  | some p => p.2
  | none => ext

/-- The activity-type to application-category fallback mapping. -/
def activityToAppType : List (Str × Str) :=
  [(jstr "gaming", jstr "games"), (jstr "music", jstr "music"),
   (jstr "coding", jstr "code"), (jstr "browsing", jstr "web"),
   (jstr "chat", jstr "messaging"), (jstr "design", jstr "creative"),
   (jstr "streaming", jstr "creative")]

/-- The app-specific refinement applied after a priority-app match,
keyed on the matched token (Spotify, Discord, VALORANT, Chrome, VS
Code), re-deriving `state` and sometimes `details` from the window
title. -/
def refinePriority (app : PriorityApp) (windowTitle processName : Str)
    (f : BaseFields) : BaseFields :=
  let tok := toLowerStr app.processName
  if includesStr (jstr "spotify") tok then
    match spotifyMatch windowTitle with
    | some (g1, g2) =>
      let song := trimStr g1
      let artist := trimStr g2
      let f1 := { f with state := song ++ jstr " by " ++ artist }
      if song ≠ [] ∧ artist ≠ [] then
        { f1 with details := jstr "Listening to Music" }
      else f1
    | none =>
      if trimStr windowTitle = jstr "Spotify" ∨
          includesStr (jstr "Spotify Premium") windowTitle = true then
        { f with state := jstr "Browsing Music", details := jstr "Using Spotify" }
      else f
  else if includesStr (jstr "discord") tok then
    if includesStr (jstr " - ") windowTitle then
      let parts := splitOnStr (jstr " - ") windowTitle
      if 3 ≤ parts.length then
        { f with state := jstr "In #" ++ parts.headD [] ++ jstr " on " ++ (parts.drop 1).headD [] }
      else if 2 ≤ parts.length then
        { f with state := jstr "Chatting in " ++ parts.headD [] }
      else f
    else if includesStr (jstr "direct") (toLowerStr windowTitle) then
      { f with state := jstr "In Direct Messages" }
    else f
  else if includesStr (jstr "valorant") tok ∨
      toLowerStr processName = jstr "VALORANT-Win64-Shipping" then
    let f1 := { f with details := jstr "Playing VALORANT" }
    if includesStr (jstr "lobby") (toLowerStr windowTitle) then
      { f1 with state := jstr "In Lobby" }
    else if includesStr (jstr "match") (toLowerStr windowTitle) then
      { f1 with state := jstr "In a Match" }
    else
      { f1 with state := jstr "In Game" }
  else if includesStr (jstr "chrome") tok then
    let f1 :=
      match chromeMatch windowTitle with
      | some (_, g2) => { f with state := jstr "On " ++ trimStr g2 }
      | none =>
        match chromeSimpleMatch windowTitle with
        | some g1 => { f with state := jstr "On " ++ trimStr g1 }
        | none => f
    if includesStr (jstr "youtube") (toLowerStr windowTitle) then
      let f2 := { f1 with details := jstr "Watching YouTube" }
      match ytMatch windowTitle with
      | some g => { f2 with state := jstr "Watching: " ++ trimStr g }
      | none => f2
    else if includesStr (jstr "twitch") (toLowerStr windowTitle) then
      { f1 with details := jstr "Watching Twitch" }
    else f1
  else if toLowerStr app.processName = jstr "code" then
    match fileExtMatch windowTitle with
    | some ext => { f with state := jstr "Coding in " ++ langLookup (toLowerStr ext) }
    | none => f
  else f

/-- The classification phase of `getCurrentActivity`: category
detection, default fields, the priority-app loop with refinements, the
custom-app loop, the VALORANT process override, the unmatched-icon
default, and the activity-type to category fallback mapping. -/
def classify (apps : List (Str × AppEntry)) (priorityApps customApps : List PriorityApp)
    (sample : Sample) : ClassifyOut :=
  let windowTitle := sample.windowTitle
  let processName := sample.processName
  let appType0 := detectAppType apps processName windowTitle
  let base : BaseFields :=
    { activityType := jstr "app", largeImageKey := jstr "windows",
      details := jstr "Using " ++ processName,
      state := if 2 < windowTitle.length then windowTitle else jstr "Idle" }
  let step1 : BaseFields × Bool :=
    match priorityApps.find? (fun app => appMatches app processName windowTitle) with
    | some app =>
      (refinePriority app windowTitle processName
        { base with activityType := app.type, largeImageKey := app.icon,
                    details := app.details, state := windowTitle }, true)
    | none => (base, false)
  let step2 : BaseFields × Bool :=
    if step1.2 then step1 else
      match customApps.find? (fun app => appMatches app processName windowTitle) with
      | some app =>
        ({ step1.1 with activityType := app.type, largeImageKey := app.icon,
                        details := app.details, state := windowTitle }, true)
      | none => (step1.1, false)
  let step3 : BaseFields × Str × Bool :=
    if processName = jstr "VALORANT-Win64-Shipping" then
      ({ step2.1 with
          activityType := jstr "games", largeImageKey := jstr "valorant",
          details := jstr "Playing VALORANT",
          state := if includesStr (jstr "lobby") (toLowerStr windowTitle) then
              jstr "In Lobby"
            else jstr "In Game" },
       jstr "games", true)
    else (step2.1, appType0, step2.2)
  let f := if step3.2.2 then step3.1 else { step3.1 with largeImageKey := jstr "windows" }
  let appType :=
    if step3.2.1 = jstr "default" ∧ f.activityType ≠ jstr "app" then
      match activityToAppType.find? (fun p => p.1 == f.activityType) with
      | some p => p.2
      | none => step3.2.1
    else step3.2.1
  { activityType := f.activityType, largeImageKey := f.largeImageKey,
    details := f.details, state := f.state, appType := appType }

/-!
Session tracking (class `ActivityTracker`): the per-poll mutable
fields, the start-time reset rule, and the per-category accumulated
seconds.  JS `Map<string, number>` is modelled as an association list
with first-occurrence lookup, which realises the same key/value
semantics.
-/

/-- Lookup in the association-list model of a JS `Map`. -/
def mapGet : List (Str × Nat) → Str → Option Nat
  | [], _ => none
  | (k2, v) :: rest, k => if k2 = k then some v else mapGet rest k

/-- Update in the association-list model of a JS `Map`: replace the
binding if present, append otherwise. -/
def mapSet : List (Str × Nat) → Str → Nat → List (Str × Nat)
  | [], k, v => [(k, v)]
  | (k2, v2) :: rest, k, v =>
    if k2 = k then (k, v) :: rest else (k2, v2) :: mapSet rest k v

/-- Lookup in the association-list model of the `activityTimers` map
(values are timestamps). -/
def mapGetI : List (Str × Int) → Str → Option Int
  | [], _ => none
  | (k2, v) :: rest, k => if k2 = k then some v else mapGetI rest k

/-- Update in the association-list model of the `activityTimers`
map. -/
def mapSetI : List (Str × Int) → Str → Int → List (Str × Int)
  | [], k, v => [(k, v)]
  | (k2, v2) :: rest, k, v =>
    if k2 = k then (k, v) :: rest else (k2, v2) :: mapSetI rest k v

/-- The mutable fields of `ActivityTracker` in the multi-identity
variant. -/
structure TrackerState where
  lastActivity : Str
  lastProcessName : Str
  lastAppType : Str
  startTime : Int
  activityTimers : List (Str × Int)
  dailyActivityStats : List (Str × Nat)

/-- The tracker state at construction time (`startTime` is the
construction timestamp, the maps are empty). -/
def initTracker (constructedAt : Int) : TrackerState :=
  { lastActivity := [], lastProcessName := [], lastAppType := [],
    startTime := constructedAt, activityTimers := [], dailyActivityStats := [] }

/-- The start-time reset rule of `getCurrentActivity`: when the
process name or the application category differs from the stored
values, the activity start time becomes the current time and both
stored fields are updated; otherwise nothing changes. -/
def updateSession (st : TrackerState) (processName appType : Str) (now : Int) :
    TrackerState :=
  if processName ≠ st.lastProcessName ∨ appType ≠ st.lastAppType then
    { st with startTime := now, lastProcessName := processName,
              lastAppType := appType }
  else st

/-- `trackActivityTime`: record the first-seen time of an activity
type, and add the literal constant 10 (the source comment reads "Add
10 seconds (update interval)") to its accumulated daily seconds. -/
def trackActivityTime (st : TrackerState) (activityType : Str) (now : Int) :
    TrackerState :=
  let timers :=
    if (mapGetI st.activityTimers activityType).isSome then st.activityTimers
    else mapSetI st.activityTimers activityType now
  let dailyTime := (mapGet st.dailyActivityStats activityType).getD 0
  { st with activityTimers := timers,
            dailyActivityStats := mapSet st.dailyActivityStats activityType (dailyTime + 10) }

/-- `formatDuration`: millisecond count to a compact human string.
Division and remainder follow JS `Math.floor` and `%` on the integral
values involved (floor division, truncated remainder). -/
def formatDuration (ms : Int) : Str :=
  let seconds := Int.fdiv ms 1000
  let minutes := Int.fdiv seconds 60
  let hours := Int.fdiv minutes 60
  if 0 < hours then
    numStr hours ++ jstr "h " ++ numStr (Int.tmod minutes 60) ++ jstr "m"
  else if 0 < minutes then
    numStr minutes ++ jstr "m " ++ numStr (Int.tmod seconds 60) ++ jstr "s"
  else
    numStr seconds ++ jstr "s"

/-- JS `charAt(0).toUpperCase() + slice(1)`. -/
def capitalizeStr : Str → Str
  | [] => []
  | c :: rest => Char.toUpper c :: rest

/-- The final payload construction of `getCurrentActivity`: `details`
and `state` are truncated to 128, the image texts are passed through
untouched. -/
def buildActivityData (details formattedState largeImageKey largeImageText smallImageText : Str)
    (startTimestamp : Int) : ActivityData :=
  { details := details.take 128, state := formattedState.take 128,
    largeImageKey := largeImageKey, largeImageText := largeImageText,
    smallImageKey := jstr "info", smallImageText := smallImageText,
    startTimestamp := startTimestamp }

/-- Everything `getCurrentActivity` returns for one poll together with
the updated tracker state. -/
structure PollOutput where
  tracker : TrackerState
  activity : ActivityData
  appType : Str
  processName : Str

/-- The pure per-poll step of `getCurrentActivity` in the
multi-identity variant, from the parsed window sample onward:
classification, start-time reset, activity-type bookkeeping, duration
formatting, daily-stat accumulation, and payload construction.  The
external inputs of the tick (current time, CPU and RAM percentages,
host name) are passed as arguments. -/
def getCurrentActivityPure (cfg : AppConfig) (priorityApps customApps : List PriorityApp)
    (st : TrackerState) (sample : Sample) (now : Int) (cpu ram : Int)
    (hostname : Str) : PollOutput :=
  let out := classify cfg.applications priorityApps customApps sample
  let st1 := updateSession st sample.processName out.appType now
  let st2 :=
    if out.activityType ≠ st1.lastActivity then
      { st1 with lastActivity := out.activityType }
    else st1
  let activityDuration := now - st2.startTime
  let fdur := formatDuration activityDuration
  let st3 := trackActivityTime st2 out.activityType now
  let formattedState :=
    if cfg.enableDetailedStats then
      out.state.take 60 ++ jstr " | " ++ fdur ++
        (if cfg.enableSystemInfo then
          jstr " | CPU: " ++ numStr cpu ++ jstr "%, RAM: " ++ numStr ram ++ jstr "%"
        else [])
    else out.state
  let daily := (mapGet st3.dailyActivityStats out.activityType).getD 0
  let activity := buildActivityData out.details formattedState out.largeImageKey
    (capitalizeStr out.activityType ++ jstr " for " ++ fdur)
    (hostname ++ jstr " | Today: " ++ formatDuration ((daily : Int) * 1000))
    st3.startTime
  { tracker := st3, activity := activity, appType := out.appType,
    processName := sample.processName }

/-- A poll-tick sequence restricted to the daily-stat bookkeeping: one
`trackActivityTime` call per tick with the category active during that
tick.  The configuration is taken as an argument because its
`updateInterval` sets the polling cadence; the tracked increment in
the source does not read it. -/
def runPollTicks (cfg : AppConfig) (cats : List Str) (st : TrackerState) : TrackerState :=
  cats.foldl (fun acc c => trackActivityTime acc c 0) st

/-!
Connection lifecycle (class `DiscordRPCApp` of the multi-identity
variant, together with the module-level `currentClientId`,
`clientConnected` and `reconnectAttempts` variables).  Timestamps and
delays are rationals; a pending `setTimeout` is an optional due time
(for the debounced switch, paired with the target client id) stored in
the state, and firing a due timer runs the translated callback body.
The reconnect `setTimeout` handle is never stored by the source, so no
operation can clear it; the field survives every state change except
its own firing.  `switchLog` records each executed
teardown-and-reconnect (the body of the switch debounce timer), in
order.
-/

/-- Declared in the source as `MAX_RECONNECT_ATTEMPTS = 5`; the
constant is never read anywhere in the program. -/
def MAX_RECONNECT_ATTEMPTS : Nat := 5

/-- The connection-manager state. -/
structure AppState where
  currentClientId : Str
  clientConnected : Bool
  reconnectAttempts : Nat
  isReconnecting : Bool
  lastSwitchTime : ℚ
  pollTimerActive : Bool
  switchTimeout : Option (ℚ × Str)
  reconnectTimer : Option ℚ
  switchLog : List Str

/-- The backoff delay computed by `reconnect`:
`Math.min(15000 * Math.pow(1.5, attempts - 1), 120000)` (exact for
every attempt count, since the capped value is reached before floating
point rounding can matter). -/
def backoffTime (attempts : Nat) : ℚ :=
  min (15000 * (3 / 2) ^ (attempts - 1)) 120000

/-- `reconnect()`: a no-op while a reconnect is already pending;
otherwise increment the attempt counter and schedule a retry after the
backoff delay.  There is no branch on the attempt count. -/
def reconnect (s : AppState) (now : ℚ) : AppState :=
  if s.isReconnecting then s
  else
    let attempts := s.reconnectAttempts + 1
    { s with isReconnecting := true, reconnectAttempts := attempts,
             reconnectTimer := some (now + backoffTime attempts) }

/-- The body of the reconnect timer: clear the reconnecting flag and
re-run `start()` (whose connect outcome is external). -/
def fireReconnectTimer (s : AppState) : AppState :=
  match s.reconnectTimer with
  | none => s
  | some _ => { s with reconnectTimer := none, isReconnecting := false }

/-- The `error` event handler: mark disconnected and reconnect unless
one is already pending. -/
def onErrorEvent (s : AppState) (now : ℚ) : AppState :=
  let s1 := { s with clientConnected := false }
  if s1.isReconnecting then s1 else reconnect s1 now

/-- The `disconnected` event handler: same recovery as the error
handler. -/
def onDisconnectedEvent (s : AppState) (now : ℚ) : AppState :=
  let s1 := { s with clientConnected := false }
  if s1.isReconnecting then s1 else reconnect s1 now

/-- A failed `client.login` inside `start()`: the catch block calls
`reconnect()`. -/
def onConnectFailure (s : AppState) (now : ℚ) : AppState :=
  reconnect s now

/-- The `ready` event handler: connected, attempt counter reset. -/
def onReadyEvent (s : AppState) : AppState :=
  { s with clientConnected := true, reconnectAttempts := 0,
           pollTimerActive := true }

/-- `switchClient` up to its debounce timer: an immediate `true` when
the requested identity is the connected one, an immediate `false` when
less than 15 seconds have passed since the last completed switch, and
otherwise a replaced (cancel-then-set) 3-second debounce timer bound
to the requested identity, whose promise resolves later (`none`). -/
def switchClientRequest (s : AppState) (newClientId : Str) (now : ℚ) :
    Option Bool × AppState :=
  if newClientId = s.currentClientId ∧ s.clientConnected = true then
    (some true, s)
  else if now - s.lastSwitchTime < 15000 then
    (some false, s)
  else
    (none, { s with switchTimeout := some (now + 3000, newClientId) })

/-- The body of the switch debounce timer: tear down the current
client, build a fresh one, and log in with the target identity.
`loginOk` is the outcome of the external `login` call; on success the
current identity and the completion time are recorded (the `ready`
event marks the connection). -/
def fireSwitchTimeout (s : AppState) (fireTime : ℚ) (loginOk : Bool) : AppState :=
  match s.switchTimeout with
  | none => s
  | some (_, newClientId) =>
    let s1 := { s with switchTimeout := none, clientConnected := false,
                       switchLog := s.switchLog ++ [newClientId] }
    if loginOk then
      { s1 with currentClientId := newClientId, clientConnected := true,
                lastSwitchTime := fireTime }
    else s1

/-- The event loop between two instants: the pending switch debounce
timer fires at its due time when that time has been reached, and
otherwise nothing happens. -/
def advanceSwitch (s : AppState) (t : ℚ) (loginOk : Bool) : AppState :=
  match s.switchTimeout with
  | some (due, _) => if due ≤ t then fireSwitchTimeout s due loginOk else s
  | none => s

/-- `stop()`: clear the poll interval and the switch debounce timer
and destroy the client.  The reconnect timer has no stored handle in
the source, so it is left untouched. -/
def stop (s : AppState) : AppState :=
  { s with pollTimerActive := false, switchTimeout := none,
           clientConnected := false }

/-- The state after startup, before any failure: no pending timers, no
completed switch. -/
def freshApp (defaultClientId : Str) : AppState :=
  { currentClientId := defaultClientId, clientConnected := false,
    reconnectAttempts := 0, isReconnecting := false, lastSwitchTime := 0,
    pollTimerActive := false, switchTimeout := none, reconnectTimer := none,
    switchLog := [] }

/-- A run of consecutive connect failures: each failure calls
`reconnect`, whose backoff timer later fires and re-attempts the
connection, which fails again. -/
def consecutiveFailures (s : AppState) : Nat → AppState
  | 0 => s
  | n + 1 => fireReconnectTimer (reconnect (consecutiveFailures s n) 0)

/-!
Concrete configurations and rules used by the closed theorems below.
-/

/-- The default `config.applications` table of the multi-identity
variant: six categories with empty identities and token lists. -/
def defaultApplications : List (Str × AppEntry) :=
  [(jstr "games", ⟨[], []⟩), (jstr "web", ⟨[], []⟩),
   (jstr "messaging", ⟨[], []⟩), (jstr "music", ⟨[], []⟩),
   (jstr "code", ⟨[], []⟩), (jstr "creative", ⟨[], []⟩)]

/-- The compiled-in default configuration of the multi-identity
variant (10 second update interval, detailed stats and system info
enabled). -/
def defaultCfg : AppConfig :=
  { defaultClientId := [], updateInterval := 10000,
    enableDetailedStats := true, enableSystemInfo := true,
    idleTimeout := 300000, applications := defaultApplications }

/-- The default configuration with the poll interval reconfigured to 5
seconds, as `config.json` permits. -/
def cfg5s : AppConfig := { defaultCfg with updateInterval := 5000 }

/-- A priority rule whose token identifies the media player. -/
def spotifyRule : PriorityApp :=
  { processName := jstr "Spotify", type := jstr "music",
    icon := jstr "spotify", details := jstr "Listening to Music" }

/-- A priority rule with a 150-character activity type, as the
configuration file permits. -/
def longTypeRule : PriorityApp :=
  { processName := jstr "zzz", type := List.replicate 150 'a',
    icon := jstr "windows", details := jstr "Busy" }

/-!
Helper lemmas about the association-list maps and the state machine,
shared by the claim theorems.
-/

theorem mapGet_mapSet_same (m : List (Str × Nat)) (k : Str) (v : Nat) :
    mapGet (mapSet m k v) k = some v := by
  induction m with
  | nil => simp [mapSet, mapGet]
  | cons p rest ih =>
    obtain ⟨k2, v2⟩ := p
    by_cases hk : k2 = k
    · simp [mapSet, hk, mapGet]
    · simp [mapSet, hk, mapGet, ih]

theorem mapGet_mapSet_other (m : List (Str × Nat)) (k k2 : Str) (v : Nat)
    (h : k2 ≠ k) : mapGet (mapSet m k v) k2 = mapGet m k2 := by
  induction m with
  | nil => simp [mapSet, mapGet, Ne.symm h]
  | cons p rest ih =>
    obtain ⟨k3, v3⟩ := p
    by_cases hk : k3 = k
    · subst hk
      simp [mapSet, mapGet, Ne.symm h]
    · simp [mapSet, hk, mapGet, ih]

theorem consecutiveFailures_invariant (s : AppState) (hs : s.isReconnecting = false)
    (n : Nat) :
    (consecutiveFailures s n).isReconnecting = false
    ∧ (consecutiveFailures s n).reconnectAttempts = s.reconnectAttempts + n := by
  induction n with
  | zero => exact ⟨hs, rfl⟩
  | succ k ih =>
    obtain ⟨h1, h2⟩ := ih
    constructor
    · simp [consecutiveFailures, reconnect, h1, fireReconnectTimer]
    · simp [consecutiveFailures, reconnect, h1, fireReconnectTimer, h2]
      omega

theorem backoffTime_le_cap (n : Nat) : backoffTime n ≤ 120000 :=
  min_le_right _ _

/-!
Claim theorems.
-/

/-- C1: on every poll, the session tracker sets the activity start
time to the current time exactly when the process name or the
application category differs from the previously stored values (a
change in either one alone suffices, and both stored fields are then
updated), and it leaves the whole state unchanged when both agree. -/
theorem c1_start_time_reset_rule (st : TrackerState) (processName appType : Str)
    (now : Int) :
    ((processName ≠ st.lastProcessName ∨ appType ≠ st.lastAppType) →
      updateSession st processName appType now =
        { st with startTime := now, lastProcessName := processName,
                  lastAppType := appType })
    ∧ ((processName = st.lastProcessName ∧ appType = st.lastAppType) →
      updateSession st processName appType now = st) := by
  constructor
  · intro h
    simp [updateSession, h]
  · rintro ⟨h1, h2⟩
    simp [updateSession, h1, h2]

/-- Witness for C1: a poll where only the category changes resets the
start time, and a poll where neither field changes leaves the tracker
untouched. -/
theorem c1_start_time_reset_rule_witness :
    (updateSession (initTracker 5) (jstr "") (jstr "games") 99 =
      { initTracker 5 with startTime := 99, lastProcessName := jstr "",
                           lastAppType := jstr "games" })
    ∧ updateSession (initTracker 5) (jstr "") (jstr "") 99 = initTracker 5 := by
  constructor
  · exact (c1_start_time_reset_rule (initTracker 5) (jstr "") (jstr "games") 99).1
      (Or.inr (by decide))
  · exact (c1_start_time_reset_rule (initTracker 5) (jstr "") (jstr "") 99).2
      ⟨by decide, by decide⟩

/-- C2: in a run of consecutive connection failures the delay
scheduled before the n-th reconnect attempt is
min(15000 times 1.5 to the (n-1), 120000) milliseconds; the first four
delays are 15000, 22500, 33750 and 50625 ms, and no delay ever exceeds
120000 ms. -/
theorem c2_backoff_schedule :
    (∀ (d : Str) (n : Nat) (t : ℚ),
      (reconnect (consecutiveFailures (freshApp d) n) t).reconnectTimer
        = some (t + backoffTime (n + 1)))
    ∧ backoffTime 1 = 15000 ∧ backoffTime 2 = 22500
    ∧ backoffTime 3 = 33750 ∧ backoffTime 4 = 50625
    ∧ (∀ n, backoffTime n ≤ 120000) := by
  refine ⟨?_, by norm_num [backoffTime], by norm_num [backoffTime],
    by norm_num [backoffTime], by norm_num [backoffTime], backoffTime_le_cap⟩
  intro d n t
  obtain ⟨h1, h2⟩ := consecutiveFailures_invariant (freshApp d) rfl n
  simp [reconnect, h1, h2, show (freshApp d).reconnectAttempts = 0 from rfl]

/-- C3 counterexample: with the poll interval configured to 5000 ms
(5 seconds), the tick sequence [A, A, A, B, B] leaves the accumulated
counter of category A at 30 seconds, not at 3 times the configured
interval in seconds: the source adds the literal constant 10 per tick
regardless of the configured interval. -/
theorem c3_fixed_increment_counterexample :
    mapGet (runPollTicks cfg5s
        [jstr "A", jstr "A", jstr "A", jstr "B", jstr "B"]
        (initTracker 0)).dailyActivityStats (jstr "A") = some 30
    ∧ 30 ≠ 3 * (cfg5s.updateInterval / 1000) := by
  decide

/-- C3 amended: on every poll tick the accumulated-seconds counter of
the active category increases by exactly 10 seconds (the default poll
interval, hard-coded independently of the configured interval), the
counters of all other categories are unchanged, and every counter is
monotonically non-decreasing; with the default 10-second interval the
tick sequence [A, A, A, B, B] yields 30 accumulated seconds for A and
20 for B. -/
theorem c3_per_tick_accumulation (st : TrackerState) (c c2 : Str) (now : Int)
    (h : c2 ≠ c) :
    mapGet (trackActivityTime st c now).dailyActivityStats c
      = some ((mapGet st.dailyActivityStats c).getD 0 + 10)
    ∧ mapGet (trackActivityTime st c now).dailyActivityStats c2
      = mapGet st.dailyActivityStats c2
    ∧ (mapGet st.dailyActivityStats c).getD 0
      ≤ (mapGet (trackActivityTime st c now).dailyActivityStats c).getD 0
    ∧ mapGet (runPollTicks defaultCfg
        [jstr "A", jstr "A", jstr "A", jstr "B", jstr "B"]
        (initTracker 0)).dailyActivityStats (jstr "A") = some 30
    ∧ mapGet (runPollTicks defaultCfg
        [jstr "A", jstr "A", jstr "A", jstr "B", jstr "B"]
        (initTracker 0)).dailyActivityStats (jstr "B") = some 20 := by
  have hsame : mapGet (trackActivityTime st c now).dailyActivityStats c
      = some ((mapGet st.dailyActivityStats c).getD 0 + 10) := by
    simp [trackActivityTime, mapGet_mapSet_same]
  refine ⟨hsame, ?_, ?_, by decide, by decide⟩
  · simp [trackActivityTime, mapGet_mapSet_other _ _ _ _ h]
  · simp [hsame]

/-- Witness for C3 amended: one tick for category A on the empty
tracker sets its counter to 10 and leaves category B absent. -/
theorem c3_per_tick_accumulation_witness :
    mapGet (trackActivityTime (initTracker 0) (jstr "A") 0).dailyActivityStats (jstr "A")
      = some ((mapGet (initTracker 0).dailyActivityStats (jstr "A")).getD 0 + 10)
    ∧ mapGet (trackActivityTime (initTracker 0) (jstr "A") 0).dailyActivityStats (jstr "B")
      = mapGet (initTracker 0).dailyActivityStats (jstr "B") := by
  have h := c3_per_tick_accumulation (initTracker 0) (jstr "A") (jstr "B") 0 (by decide)
  exact ⟨h.1, h.2.1⟩

set_option maxRecDepth 8000 in
/-- C4 counterexample: a rule set is an input of the payload pipeline,
and a priority rule with a 150-character activity type produces a
`largeImageText` longer than 128 code units — the source truncates
only `details` and `state`, so not every string field of the payload
is capped at 128. -/
theorem c4_length_cap_counterexample :
    128 < (getCurrentActivityPure defaultCfg [longTypeRule] [] (initTracker 0)
        { windowTitle := jstr "zzz", processName := jstr "zzz" }
        0 0 0 (jstr "host")).activity.largeImageText.length := by
  decide

/-- C4 amended: for every input window title, process name, rule set,
tracker state and external readings, the `details` and `state` fields
of the constructed payload are at most 128 code units (`details` is
truncated to 128, `state` is composed from the 60-unit-truncated raw
state, the formatted duration and the optional CPU/RAM suffix and then
truncated to 128); `largeImageText` and `smallImageText` are built
without any truncation and can exceed 128. -/
theorem c4_details_state_capped (cfg : AppConfig)
    (priorityApps customApps : List PriorityApp) (st : TrackerState)
    (sample : Sample) (now cpu ram : Int) (hostname : Str) :
    (getCurrentActivityPure cfg priorityApps customApps st sample now cpu ram
        hostname).activity.details.length ≤ 128
    ∧ (getCurrentActivityPure cfg priorityApps customApps st sample now cpu ram
        hostname).activity.state.length ≤ 128 := by
  constructor
  · simp only [getCurrentActivityPure, buildActivityData, List.length_take]
    exact min_le_left _ _
  · simp only [getCurrentActivityPure, buildActivityData, List.length_take]
    exact min_le_left _ _

/-- C5: under a priority rule whose token identifies the media player,
the title "Song - Artist - Spotify" classifies to the state
"Song by Artist" with details "Listening to Music"; the bare title
"Spotify", and a title containing the premium / no-playback marker,
classify to the state "Browsing Music". -/
theorem c5_media_player_states :
    (classify defaultApplications [spotifyRule] []
        { windowTitle := jstr "Song - Artist - Spotify",
          processName := jstr "Spotify" }).state = jstr "Song by Artist"
    ∧ (classify defaultApplications [spotifyRule] []
        { windowTitle := jstr "Song - Artist - Spotify",
          processName := jstr "Spotify" }).details = jstr "Listening to Music"
    ∧ (classify defaultApplications [spotifyRule] []
        { windowTitle := jstr "Spotify",
          processName := jstr "Spotify" }).state = jstr "Browsing Music"
    ∧ (classify defaultApplications [spotifyRule] []
        { windowTitle := jstr "Spotify Premium",
          processName := jstr "Spotify" }).state = jstr "Browsing Music" := by
  decide

/-- C6: two switch requests to different identities A and B issued
within 3 seconds of each other, outside the rate-limit window, produce
exactly one teardown-and-reconnect, bound to the second identity: the
first request's debounce timer is still pending when the second
arrives, gets replaced by a timer bound to B, and after the replaced
timer fires the log of executed switches holds exactly B. -/
theorem c6_switch_debounce (s : AppState) (A B : Str) (t0 t1 : ℚ) (okMid : Bool)
    (hLog : s.switchLog = [])
    (hA : ¬(A = s.currentClientId ∧ s.clientConnected = true))
    (hB : ¬(B = s.currentClientId ∧ s.clientConnected = true))
    (hRate : 15000 ≤ t0 - s.lastSwitchTime)
    (hOrder : t0 ≤ t1) (hWithin : t1 < t0 + 3000) :
    advanceSwitch ((switchClientRequest s A t0).2) t1 okMid
      = (switchClientRequest s A t0).2
    ∧ ((switchClientRequest (advanceSwitch ((switchClientRequest s A t0).2) t1 okMid)
        B t1).2).switchTimeout = some (t1 + 3000, B)
    ∧ (advanceSwitch ((switchClientRequest
          (advanceSwitch ((switchClientRequest s A t0).2) t1 okMid) B t1).2)
        (t1 + 3000) true).switchLog = [B]
    ∧ (advanceSwitch ((switchClientRequest
          (advanceSwitch ((switchClientRequest s A t0).2) t1 okMid) B t1).2)
        (t1 + 3000) true).currentClientId = B
    ∧ (advanceSwitch ((switchClientRequest
          (advanceSwitch ((switchClientRequest s A t0).2) t1 okMid) B t1).2)
        (t1 + 3000) true).switchTimeout = none := by
  have hnr0 : ¬(t0 - s.lastSwitchTime < 15000) := not_lt.mpr hRate
  have hnr1 : ¬(t1 - s.lastSwitchTime < 15000) := not_lt.mpr (by linarith)
  have h1 : (switchClientRequest s A t0).2
      = { s with switchTimeout := some (t0 + 3000, A) } := by
    simp [switchClientRequest, hA, hnr0]
  have hdue : ¬(t0 + 3000 ≤ t1) := by linarith
  have h2 : advanceSwitch ({ s with switchTimeout := some (t0 + 3000, A) }) t1 okMid
      = { s with switchTimeout := some (t0 + 3000, A) } := by
    simp [advanceSwitch, hdue]
  have h3 : (switchClientRequest ({ s with switchTimeout := some (t0 + 3000, A) })
        B t1).2 = { s with switchTimeout := some (t1 + 3000, B) } := by
    simp [switchClientRequest, hB, hnr1]
  have h4 : advanceSwitch ({ s with switchTimeout := some (t1 + 3000, B) })
        (t1 + 3000) true
      = { s with switchTimeout := none, clientConnected := true,
                 currentClientId := B, lastSwitchTime := t1 + 3000,
                 switchLog := s.switchLog ++ [B] } := by
    simp [advanceSwitch, fireSwitchTimeout]
  rw [h1, h2, h3, h4]
  simp [hLog]

/-- Witness for C6: from a connected state with an old last switch,
requests for identities a and b two seconds apart produce a single
executed switch to b. -/
theorem c6_switch_debounce_witness :
    advanceSwitch ((switchClientRequest
        { freshApp (jstr "c") with clientConnected := true }
        (jstr "a") 20000).2) 22000 true
      = (switchClientRequest
          { freshApp (jstr "c") with clientConnected := true } (jstr "a") 20000).2
    ∧ ((switchClientRequest (advanceSwitch ((switchClientRequest
          { freshApp (jstr "c") with clientConnected := true }
          (jstr "a") 20000).2) 22000 true) (jstr "b") 22000).2).switchTimeout
        = some (22000 + 3000, jstr "b")
    ∧ (advanceSwitch ((switchClientRequest (advanceSwitch ((switchClientRequest
          { freshApp (jstr "c") with clientConnected := true }
          (jstr "a") 20000).2) 22000 true) (jstr "b") 22000).2)
        (22000 + 3000) true).switchLog = [jstr "b"]
    ∧ (advanceSwitch ((switchClientRequest (advanceSwitch ((switchClientRequest
          { freshApp (jstr "c") with clientConnected := true }
          (jstr "a") 20000).2) 22000 true) (jstr "b") 22000).2)
        (22000 + 3000) true).currentClientId = jstr "b"
    ∧ (advanceSwitch ((switchClientRequest (advanceSwitch ((switchClientRequest
          { freshApp (jstr "c") with clientConnected := true }
          (jstr "a") 20000).2) 22000 true) (jstr "b") 22000).2)
        (22000 + 3000) true).switchTimeout = none := by
  exact c6_switch_debounce { freshApp (jstr "c") with clientConnected := true }
    (jstr "a") (jstr "b") 20000 22000 true rfl (by decide) (by decide)
    (by norm_num [freshApp]) (by norm_num) (by norm_num)

/-- C7: a switch request strictly less than 15 seconds after the last
completed switch leaves the whole connection state unchanged (no timer
scheduled, identity unchanged, nothing queued); a request 15 seconds
or later schedules the 3-second debounce timer for the requested
identity, and when that timer fires the connection is bound to the
requested identity and the completion time is recorded. -/
theorem c7_switch_rate_limit (s : AppState) (newId : Str) (now : ℚ) :
    (now - s.lastSwitchTime < 15000 → (switchClientRequest s newId now).2 = s)
    ∧ (15000 ≤ now - s.lastSwitchTime →
        ¬(newId = s.currentClientId ∧ s.clientConnected = true) →
        ((switchClientRequest s newId now).2.switchTimeout
            = some (now + 3000, newId)
        ∧ (advanceSwitch ((switchClientRequest s newId now).2)
            (now + 3000) true).currentClientId = newId
        ∧ (advanceSwitch ((switchClientRequest s newId now).2)
            (now + 3000) true).lastSwitchTime = now + 3000)) := by
  constructor
  · intro h
    by_cases hc : newId = s.currentClientId ∧ s.clientConnected = true
    · simp [switchClientRequest, hc]
    · simp [switchClientRequest, hc, h]
  · intro h hc
    have hnl : ¬(now - s.lastSwitchTime < 15000) := not_lt.mpr h
    have h1 : (switchClientRequest s newId now).2
        = { s with switchTimeout := some (now + 3000, newId) } := by
      simp [switchClientRequest, hc, hnl]
    rw [h1]
    refine ⟨rfl, ?_, ?_⟩ <;> simp [advanceSwitch, fireSwitchTimeout]

/-- Witness for C7: after a switch completed at time 1000, a request
at 11000 (10 seconds later) changes nothing, and a request at 17000
(16 seconds later) schedules the debounce timer and, once it fires,
rebinds the connection. -/
theorem c7_switch_rate_limit_witness :
    (switchClientRequest
        { freshApp (jstr "main") with clientConnected := true, lastSwitchTime := 1000 }
        (jstr "other") 11000).2
      = { freshApp (jstr "main") with clientConnected := true, lastSwitchTime := 1000 }
    ∧ ((switchClientRequest
        { freshApp (jstr "main") with clientConnected := true, lastSwitchTime := 1000 }
        (jstr "other") 17000).2.switchTimeout = some (17000 + 3000, jstr "other")
      ∧ (advanceSwitch ((switchClientRequest
          { freshApp (jstr "main") with clientConnected := true, lastSwitchTime := 1000 }
          (jstr "other") 17000).2) (17000 + 3000) true).currentClientId = jstr "other"
      ∧ (advanceSwitch ((switchClientRequest
          { freshApp (jstr "main") with clientConnected := true, lastSwitchTime := 1000 }
          (jstr "other") 17000).2) (17000 + 3000) true).lastSwitchTime
        = 17000 + 3000) := by
  constructor
  · exact (c7_switch_rate_limit
      { freshApp (jstr "main") with clientConnected := true, lastSwitchTime := 1000 }
      (jstr "other") 11000).1 (by norm_num [freshApp])
  · exact (c7_switch_rate_limit
      { freshApp (jstr "main") with clientConnected := true, lastSwitchTime := 1000 }
      (jstr "other") 17000).2 (by norm_num [freshApp]) (by decide)

/-- C8 counterexample: a reconnect retry scheduled before `stop()` is
still pending after `stop()` returns — the source never stores the
reconnect timer handle, so `stop()` cannot cancel it, and the pending
callback still runs (it flips the reconnecting flag and re-invokes
`start`). -/
theorem c8_stop_counterexample :
    (stop { freshApp (jstr "main") with
        reconnectTimer := some 50000, isReconnecting := true }).reconnectTimer
      = some 50000
    ∧ (stop { freshApp (jstr "main") with
        reconnectTimer := some 50000, isReconnecting := true }).isReconnecting
      = true
    ∧ (fireReconnectTimer (stop { freshApp (jstr "main") with
        reconnectTimer := some 50000,
        isReconnecting := true })).isReconnecting = false := by
  decide

/-- C8 amended: `stop()` cancels the poll interval and the switch
debounce timer (so neither of those callbacks can fire afterwards) and
tears down the connection, but it leaves any pending reconnect timer
exactly as it was: a reconnect retry scheduled before `stop()` still
fires. -/
theorem c8_stop_cancellation (s : AppState) :
    (stop s).pollTimerActive = false ∧ (stop s).switchTimeout = none
    ∧ (stop s).clientConnected = false
    ∧ (stop s).reconnectTimer = s.reconnectTimer := by
  simp [stop]

/-- C9: every transport failure path (connect failure, error event,
disconnect event) from a state with no reconnect already pending
schedules another reconnect attempt, whatever the current attempt
count is — there is no branch on any attempt cap — and the scheduled
delay never exceeds 120000 ms. -/
theorem c9_reconnect_never_gives_up (s : AppState) (now : ℚ)
    (h : s.isReconnecting = false) :
    (onConnectFailure s now).reconnectTimer
      = some (now + backoffTime (s.reconnectAttempts + 1))
    ∧ (onErrorEvent s now).reconnectTimer
      = some (now + backoffTime (s.reconnectAttempts + 1))
    ∧ (onDisconnectedEvent s now).reconnectTimer
      = some (now + backoffTime (s.reconnectAttempts + 1))
    ∧ backoffTime (s.reconnectAttempts + 1) ≤ 120000 := by
  refine ⟨?_, ?_, ?_, backoffTime_le_cap _⟩ <;>
    simp [onConnectFailure, onErrorEvent, onDisconnectedEvent, reconnect, h]

/-- Witness for C9: with 100 previous attempts — far beyond the unused
`MAX_RECONNECT_ATTEMPTS` constant — every failure path still schedules
a capped retry. -/
theorem c9_reconnect_never_gives_up_witness :
    (onConnectFailure { freshApp (jstr "main") with reconnectAttempts := 100 }
        0).reconnectTimer = some (0 + backoffTime (100 + 1))
    ∧ (onErrorEvent { freshApp (jstr "main") with reconnectAttempts := 100 }
        0).reconnectTimer = some (0 + backoffTime (100 + 1))
    ∧ (onDisconnectedEvent { freshApp (jstr "main") with reconnectAttempts := 100 }
        0).reconnectTimer = some (0 + backoffTime (100 + 1))
    ∧ backoffTime (100 + 1) ≤ 120000 :=
  c9_reconnect_never_gives_up
    { freshApp (jstr "main") with reconnectAttempts := 100 } 0 rfl

/-- C10: a switch request for the identity that is already connected
immediately resolves to success and changes nothing: no teardown, no
debounce timer, the rate-limit window is irrelevant, and the current
identity, last-switch time and any pending switch timer are left
untouched. -/
theorem c10_same_identity_noop (s : AppState) (newId : Str) (now : ℚ)
    (h1 : newId = s.currentClientId) (h2 : s.clientConnected = true) :
    switchClientRequest s newId now = (some true, s) := by
  simp [switchClientRequest, h1, h2]

/-- Witness for C10: requesting the connected identity inside the
15-second rate-limit window, with another switch timer still pending,
returns success and the state — pending timer included — verbatim. -/
theorem c10_same_identity_noop_witness :
    switchClientRequest
        { freshApp (jstr "main") with
          clientConnected := true, switchTimeout := some (500, jstr "x") }
        (jstr "main") 1000
      = (some true,
         { freshApp (jstr "main") with
           clientConnected := true, switchTimeout := some (500, jstr "x") }) :=
  c10_same_identity_noop
    { freshApp (jstr "main") with
      clientConnected := true, switchTimeout := some (500, jstr "x") }
    (jstr "main") 1000 rfl rfl

end CustomRPC

